import Mathlib

/-!
Shallow embedding of the `devtimer` crate (files `lib.rs`, `simple.rs`,
`traits.rs`).

Modelling choices, shared by every definition below:
* `std::time::Instant` is modelled as a `Nat` counting nanoseconds on the
  monotone clock.  Each call to `Instant::now()` consumes the next value of an
  ambient clock stream `clock : Nat → Nat`.
* `std::time::Duration` is modelled as the pair `(secs, nanos)` with the
  invariant `nanos < 10^9` that the Rust type maintains, and
  `Instant::duration_since` saturates to zero when the end instant precedes
  the start instant, as the Rust method does.
* A Rust panic (assertion failure, arithmetic underflow, index out of
  bounds, `Option::unwrap` on `None`) aborts the process; it is modelled by
  `none` in an `Option`-valued result.
* `Result<(), &'static str>` is modelled as `Except String Unit`; the
  mutable receiver `&mut self` is modelled by returning the updated state
  next to the `Except` result (the state is returned unchanged on the error
  paths, as a `&mut` method that returns early leaves it).
* The `HashMap<&'static str, SimpleTimer>` of `ComplexTimer` is modelled
  extensionally, as the lookup function `String → Option SimpleTimer`;
  the claims under study never depend on iteration order.
-/

/-! ### `std::time` model -/

/-- `std::time::Duration`: seconds plus sub-second nanoseconds, with the
representation invariant `nanos < 1_000_000_000` that Rust maintains. -/
structure Duration where
  secs : Nat
  nanos : Nat
  nanos_lt : nanos < 1000000000

/-- Build a `Duration` from a total nanosecond count (this is how a
nanosecond difference of instants is normalised into the `Duration`
representation). -/
def Duration.fromNanos (n : Nat) : Duration :=
  ⟨n / 1000000000, n % 1000000000, Nat.mod_lt _ (by omega)⟩

/-- `Instant::duration_since`: elapsed time from `earlier` to `this`;
saturates to the zero duration when `earlier` is later (`Nat` subtraction
truncates, matching the Rust behaviour). -/
def durationSince (this earlier : Nat) : Duration :=
  Duration.fromNanos (this - earlier)

/-- `Duration::as_nanos`. -/
def Duration.asNanos (d : Duration) : Nat :=
  d.secs * 1000000000 + d.nanos

/-- `Duration::as_micros`. -/
def Duration.asMicros (d : Duration) : Nat :=
  d.secs * 1000000 + d.nanos / 1000

/-- `Duration::as_millis`. -/
def Duration.asMillis (d : Duration) : Nat :=
  d.secs * 1000 + d.nanos / 1000000

/-- `Duration::as_secs`. -/
def Duration.asSecs (d : Duration) : Nat :=
  d.secs

/-! ### `lib.rs`: `SimpleTimer` -/

namespace Lib

/-- `lib.rs`'s `SimpleTimer`: the two optional instant marks. -/
structure SimpleTimer where
  start : Option Nat
  stop : Option Nat
deriving DecidableEq

/-- `SimpleTimer::new`: both marks absent. -/
def SimpleTimer.new : SimpleTimer :=
  ⟨none, none⟩

/-- `SimpleTimer::start` (`lib.rs`): unconditionally records the current
instant as the start mark.  This variant never fails. -/
def SimpleTimer.startAt (t : SimpleTimer) (now : Nat) : SimpleTimer :=
  { t with start := some now }

/-- `SimpleTimer::stop` (`lib.rs`): unconditionally records the current
instant as the stop mark.  This variant never fails. -/
def SimpleTimer.stopAt (t : SimpleTimer) (now : Nat) : SimpleTimer :=
  { t with stop := some now }

/-- `SimpleTimer::find_diff`: `Some (stop.duration_since(start))` when both
marks are present, `None` otherwise. -/
def SimpleTimer.findDiff (t : SimpleTimer) : Option Duration :=
  match t.start with
  | some s =>
    match t.stop with
    | some e => some (durationSince e s)
    | none => none
  | none => none

/-- `SimpleTimer::time_in_nanos` (`lib.rs`). -/
def SimpleTimer.timeInNanos (t : SimpleTimer) : Option Nat :=
  match t.findDiff with
  | some d => some d.asNanos
  | none => none

/-- `SimpleTimer::time_in_micros` (`lib.rs`). -/
def SimpleTimer.timeInMicros (t : SimpleTimer) : Option Nat :=
  match t.findDiff with
  | some d => some d.asMicros
  | none => none

/-- `SimpleTimer::time_in_millis` (`lib.rs`). -/
def SimpleTimer.timeInMillis (t : SimpleTimer) : Option Nat :=
  match t.findDiff with
  | some d => some d.asMillis
  | none => none

/-- `SimpleTimer::time_in_secs` (`lib.rs`). -/
def SimpleTimer.timeInSecs (t : SimpleTimer) : Option Nat :=
  match t.findDiff with
  | some d => some d.asSecs
  | none => none

/-! ### `lib.rs`: `ComplexTimer` (the tag → timer registry) -/

/-- `ComplexTimer`: the `HashMap<&'static str, SimpleTimer>` modelled by its
lookup function. -/
structure ComplexTimer where
  timers : String → Option SimpleTimer

/-- `ComplexTimer::new`: the empty registry. -/
def ComplexTimer.new : ComplexTimer :=
  ⟨fun _ => none⟩

/-- `ComplexTimer::create_timer`: error if the tag is already present,
otherwise insert a fresh empty timer under the tag. -/
def ComplexTimer.createTimer (c : ComplexTimer) (name : String) :
    Except String Unit × ComplexTimer :=
  if (c.timers name).isSome then
    (.error "This timer already exists", c)
  else
    (.ok (), ⟨fun k => if k = name then some ⟨none, none⟩ else c.timers k⟩)

/-- `ComplexTimer::start_timer`: error if the tag is absent; otherwise set
the tagged timer's start mark to the current instant (unconditionally). -/
def ComplexTimer.startTimer (c : ComplexTimer) (name : String) (now : Nat) :
    Except String Unit × ComplexTimer :=
  match c.timers name with
  | none => (.error "This timer does not exist", c)
  | some x =>
    (.ok (), ⟨fun k => if k = name then some { x with start := some now } else c.timers k⟩)

/-- `ComplexTimer::stop_timer`: error if the tag is absent; otherwise set
the tagged timer's stop mark to the current instant (unconditionally). -/
def ComplexTimer.stopTimer (c : ComplexTimer) (name : String) (now : Nat) :
    Except String Unit × ComplexTimer :=
  match c.timers name with
  | none => (.error "This timer does not exist", c)
  | some x =>
    (.ok (), ⟨fun k => if k = name then some { x with stop := some now } else c.timers k⟩)

/-- `ComplexTimer::delete_timer`: remove the entry; error if absent. -/
def ComplexTimer.deleteTimer (c : ComplexTimer) (name : String) :
    Except String Unit × ComplexTimer :=
  match c.timers name with
  | some _ => (.ok (), ⟨fun k => if k = name then none else c.timers k⟩)
  | none => (.error "This timer does not exist", c)

/-- `ComplexTimer::time_in_nanos(tag)`: `None` when the tag is absent or the
tagged timer is incomplete. -/
def ComplexTimer.timeInNanos (c : ComplexTimer) (name : String) : Option Nat :=
  match c.timers name with
  | some t =>
    match t.findDiff with
    | some diff => some diff.asNanos
    | none => none
  | none => none

end Lib

/-! ### `lib.rs`: `run_benchmark` -/

/-- `RunThroughReport`: the `{fastest, slowest, avg}` snapshot. -/
structure RunThroughReport where
  fastest : Nat
  slowest : Nat
  avg : Nat
deriving DecidableEq

/-- One loop iteration of `run_benchmark`: `timer.start(); function(i);
timer.stop(); res.push(timer.time_in_nanos().unwrap())`.  Iteration `i`
consumes the clock instants `clock (2*i)` (at `start`) and `clock (2*i+1)`
(at `stop`); the user operation runs between the two calls.  `none` models
the abort of the per-iteration `unwrap` on a `None` elapsed value. -/
def benchStep (clock : Nat → Nat) (i : Nat) (t : Lib.SimpleTimer) :
    Option (Lib.SimpleTimer × Nat) :=
  let t1 := t.startAt (clock (2 * i))
  let t2 := t1.stopAt (clock (2 * i + 1))
  match t2.timeInNanos with
  | some n => some (t2, n)
  | none => none

/-- The `for i in 0..iters` loop of `run_benchmark`, threading the single
internal timer.  Returns the final timer, the collected sample vector `res`,
and the list of indices the user operation was invoked with (in call
order). -/
def benchLoop (clock : Nat → Nat) :
    List Nat → Lib.SimpleTimer → List Nat → List Nat →
    Option (Lib.SimpleTimer × List Nat × List Nat)
  | [], t, res, calls => some (t, res, calls)
  | i :: rest, t, res, calls =>
    match benchStep clock i t with
    | none => none
    | some (t2, n) => benchLoop clock rest t2 (res ++ [n]) (calls ++ [i])

/-- `run_benchmark(iters, function)`.  The first component is the list of
indices the user operation was invoked with; the second is the produced
report, with `none` modelling a process abort (panic).  After the loop the
code computes `res.len() - 1` and indexes `res[0]` and `res[realindex]`:
on an empty sample vector this aborts (integer underflow in debug, index
out of bounds in release), which the `res.length = 0` branch models.
The reduction sorts ascending, takes the ends, and divides the total by
`iters` with truncating division. -/
def run_benchmark (iters : Nat) (clock : Nat → Nat) :
    List Nat × Option RunThroughReport :=
  match benchLoop clock (List.range iters) Lib.SimpleTimer.new [] [] with
  | none => ([], none)
  | some (_, res, calls) =>
    if res.length = 0 then (calls, none)
    else
      let sorted := res.mergeSort (fun a b => a ≤ b)
      (calls, some ⟨sorted.headD 0, sorted.getLastD 0, sorted.sum / iters⟩)

/-- The per-iteration nanosecond samples a run with clock stream `clock`
produces: iteration `i` measures from `clock (2*i)` to `clock (2*i+1)`. -/
def samplesOf (clock : Nat → Nat) (iters : Nat) : List Nat :=
  (List.range iters).map fun i => clock (2 * i + 1) - clock (2 * i)

/-! ### `simple.rs`: the assert-guarded `SimpleTimer` variant -/

namespace Simple

/-- `simple.rs`'s `SimpleTimer`: optional marks plus a diagnostic name. -/
structure SimpleTimer where
  start : Option Nat
  stop : Option Nat
  name : String
deriving DecidableEq

/-- `SimpleTimer::_new` / `new_named`. -/
def SimpleTimer.newNamed (name : String) : SimpleTimer :=
  ⟨none, none, name⟩

/-- `SimpleTimer::reset`: clears both marks unconditionally. -/
def SimpleTimer.reset (t : SimpleTimer) : SimpleTimer :=
  { t with start := none, stop := none }

/-- `SimpleTimer::start` (`simple.rs`): asserts that no start mark exists
(`none` models the `assert!` panic), then records the current instant. -/
def SimpleTimer.startAt (t : SimpleTimer) (now : Nat) : Option SimpleTimer :=
  if t.start.isNone then some { t with start := some now } else none

/-- `SimpleTimer::stop` (`simple.rs`): asserts that no stop mark exists
(`none` models the `assert!` panic), then records the current instant. -/
def SimpleTimer.stopAt (t : SimpleTimer) (now : Nat) : Option SimpleTimer :=
  if t.stop.isNone then some { t with stop := some now } else none

/-- `SimpleTimer::start_checked`: records the mark only when absent and
reports whether it was newly set; never fails. -/
def SimpleTimer.startChecked (t : SimpleTimer) (now : Nat) : Bool × SimpleTimer :=
  if t.start.isNone then (true, { t with start := some now }) else (false, t)

/-- `SimpleTimer::stop_checked`: records the mark only when absent and
reports whether it was newly set; never fails. -/
def SimpleTimer.stopChecked (t : SimpleTimer) (now : Nat) : Bool × SimpleTimer :=
  if t.stop.isNone then (true, { t with stop := some now }) else (false, t)

/-- `TimeDifferenceExt::time_in_nanos` (`traits.rs`), instantiated at the
`TimeDifference` impl of `simple.rs`'s `SimpleTimer` (the getters return the
two mark fields). -/
def SimpleTimer.timeInNanos (t : SimpleTimer) : Option Nat :=
  match t.start, t.stop with
  | some s, some e => some (durationSince e s).asNanos
  | _, _ => none

/-- `TimeDifferenceExt::time_in_micros` (`traits.rs`) at `SimpleTimer`. -/
def SimpleTimer.timeInMicros (t : SimpleTimer) : Option Nat :=
  match t.start, t.stop with
  | some s, some e => some (durationSince e s).asMicros
  | _, _ => none

/-- `TimeDifferenceExt::time_in_millis` (`traits.rs`) at `SimpleTimer`. -/
def SimpleTimer.timeInMillis (t : SimpleTimer) : Option Nat :=
  match t.start, t.stop with
  | some s, some e => some (durationSince e s).asMillis
  | _, _ => none

/-- `TimeDifferenceExt::time_in_secs` (`traits.rs`) at `SimpleTimer`. -/
def SimpleTimer.timeInSecs (t : SimpleTimer) : Option Nat :=
  match t.start, t.stop with
  | some s, some e => some (durationSince e s).asSecs
  | _, _ => none

end Simple

/-! ### Helper lemmas: `Duration` normalisation -/

theorem Duration.fromNanos_asNanos (m : Nat) : (Duration.fromNanos m).asNanos = m := by
  simp only [Duration.fromNanos, Duration.asNanos]
  omega

theorem Duration.fromNanos_asMicros (m : Nat) :
    (Duration.fromNanos m).asMicros = m / 1000 := by
  simp only [Duration.fromNanos, Duration.asMicros]
  omega

theorem Duration.fromNanos_asMillis (m : Nat) :
    (Duration.fromNanos m).asMillis = m / 1000000 := by
  simp only [Duration.fromNanos, Duration.asMillis]
  omega

theorem Duration.fromNanos_asSecs (m : Nat) :
    (Duration.fromNanos m).asSecs = m / 1000000000 := by
  simp only [Duration.fromNanos, Duration.asSecs]

/-! ### Helper lemmas: sorted lists -/

theorem headD_mem {l : List Nat} (h : l ≠ []) : l.headD 0 ∈ l := by
  cases l with
  | nil => exact absurd rfl h
  | cons a t => simp

theorem getLastD_mem {l : List Nat} (h : l ≠ []) : l.getLastD 0 ∈ l := by
  rw [List.getLastD_eq_getLast?, List.getLast?_eq_getLast l h, Option.getD_some]
  exact List.getLast_mem h

theorem sorted_headD_le {l : List Nat} (hs : l.Sorted (· ≤ ·)) :
    ∀ x ∈ l, l.headD 0 ≤ x := by
  cases l with
  | nil => intro x hx; cases hx
  | cons a t =>
    intro x hx
    rcases List.mem_cons.mp hx with rfl | hx
    · simp
    · simpa using List.rel_of_sorted_cons hs x hx

theorem sorted_le_getLastD {l : List Nat} (hs : l.Sorted (· ≤ ·)) :
    ∀ x ∈ l, x ≤ l.getLastD 0 := by
  intro x hx
  have hne : l ≠ [] := List.ne_nil_of_mem hx
  rw [List.getLastD_eq_getLast?, List.getLast?_eq_getLast l hne, Option.getD_some,
    List.getLast_eq_getElem]
  obtain ⟨i, hi⟩ := List.mem_iff_get.mp hx
  rw [← hi]
  rcases Nat.lt_or_ge i.1 (l.length - 1) with hlt | hge
  · exact hs.rel_get_of_lt (by simpa [Fin.lt_def] using hlt)
  · have hieq : i.1 = l.length - 1 := by omega
    simp only [List.get_eq_getElem, hieq]
    exact Nat.le_refl _

theorem mergeSort_le_sorted (l : List Nat) :
    (l.mergeSort (fun a b => a ≤ b)).Sorted (· ≤ ·) := by
  have h := @List.sorted_mergeSort Nat (fun a b => decide (a ≤ b))
    (fun a b c hab hbc => by
      simp only [decide_eq_true_eq] at hab hbc ⊢
      omega)
    (fun a b => by
      simp only [Bool.or_eq_true, decide_eq_true_eq]
      omega) l
  exact h.imp (fun hab => of_decide_eq_true hab)

/-! ### Helper lemmas: the benchmark loop -/

theorem benchStep_eq (clock : Nat → Nat) (i : Nat) (t : Lib.SimpleTimer) :
    benchStep clock i t =
      some (⟨some (clock (2 * i)), some (clock (2 * i + 1))⟩,
        clock (2 * i + 1) - clock (2 * i)) := by
  simp [benchStep, Lib.SimpleTimer.startAt, Lib.SimpleTimer.stopAt,
    Lib.SimpleTimer.timeInNanos, Lib.SimpleTimer.findDiff, durationSince,
    Duration.fromNanos_asNanos]

theorem benchLoop_eq (clock : Nat → Nat) (idxs : List Nat) :
    ∀ (t : Lib.SimpleTimer) (res calls : List Nat),
      ∃ tf, benchLoop clock idxs t res calls =
        some (tf, res ++ idxs.map (fun i => clock (2 * i + 1) - clock (2 * i)),
          calls ++ idxs) := by
  induction idxs with
  | nil =>
    intro t res calls
    exact ⟨t, by simp [benchLoop]⟩
  | cons i rest ih =>
    intro t res calls
    obtain ⟨tf, htf⟩ := ih ⟨some (clock (2 * i)), some (clock (2 * i + 1))⟩
      (res ++ [clock (2 * i + 1) - clock (2 * i)]) (calls ++ [i])
    refine ⟨tf, ?_⟩
    rw [benchLoop, benchStep_eq]
    simp only [htf, List.map_cons, List.append_assoc, List.singleton_append]

theorem samplesOf_length (clock : Nat → Nat) (iters : Nat) :
    (samplesOf clock iters).length = iters := by
  simp [samplesOf]

/-- Master lemma about a benchmark run with at least one iteration: the run
returns normally, invoking the operation at the indices `0..iters` in order,
and the report holds the minimum sample, the maximum sample, and the
truncated mean of all samples. -/
theorem run_benchmark_spec (iters : Nat) (clock : Nat → Nat) (h : 1 ≤ iters) :
    ∃ r, run_benchmark iters clock = (List.range iters, some r) ∧
      r.fastest ∈ samplesOf clock iters ∧
      (∀ x ∈ samplesOf clock iters, r.fastest ≤ x) ∧
      r.slowest ∈ samplesOf clock iters ∧
      (∀ x ∈ samplesOf clock iters, x ≤ r.slowest) ∧
      r.avg = (samplesOf clock iters).sum / iters := by
  obtain ⟨tf, htf⟩ := benchLoop_eq clock (List.range iters) Lib.SimpleTimer.new [] []
  simp only [List.nil_append] at htf
  have hS : (List.range iters).map (fun i => clock (2 * i + 1) - clock (2 * i)) =
      samplesOf clock iters := rfl
  rw [hS] at htf
  have hlen : (samplesOf clock iters).length = iters := samplesOf_length clock iters
  have hlen0 : ¬ (samplesOf clock iters).length = 0 := by omega
  have hperm : ((samplesOf clock iters).mergeSort (fun a b => a ≤ b)).Perm
      (samplesOf clock iters) := List.mergeSort_perm _ _
  have hsorted := mergeSort_le_sorted (samplesOf clock iters)
  have hnil : (samplesOf clock iters).mergeSort (fun a b => a ≤ b) ≠ [] := by
    intro hcon
    have := @List.length_mergeSort Nat (fun a b => decide (a ≤ b)) (samplesOf clock iters)
    rw [hcon] at this
    simp at this
    omega
  refine ⟨⟨((samplesOf clock iters).mergeSort (fun a b => a ≤ b)).headD 0,
    ((samplesOf clock iters).mergeSort (fun a b => a ≤ b)).getLastD 0,
    ((samplesOf clock iters).mergeSort (fun a b => a ≤ b)).sum / iters⟩, ?_, ?_, ?_, ?_, ?_, ?_⟩
  · rw [run_benchmark.eq_def, htf]
    simp only [hlen0, if_false]
  · exact hperm.mem_iff.mp (headD_mem hnil)
  · intro x hx
    exact sorted_headD_le hsorted x (hperm.mem_iff.mpr hx)
  · exact hperm.mem_iff.mp (getLastD_mem hnil)
  · intro x hx
    exact sorted_le_getLastD hsorted x (hperm.mem_iff.mpr hx)
  · rw [hperm.sum_eq]

/-! ### Claim theorems -/

/-- Claim C1: for every benchmark run with iteration count `N ≥ 1` producing
per-iteration nanosecond samples `s_0 .. s_{N-1}`, the returned report has
`fastest` equal to the minimum sample, `slowest` equal to the maximum sample,
and `average` equal to the sum of all `N` samples divided by `N` with
truncating integer division. -/
theorem C1_benchmark_reduction (iters : Nat) (clock : Nat → Nat) (h : 1 ≤ iters) :
    ∃ r, (run_benchmark iters clock).2 = some r ∧
      r.fastest ∈ samplesOf clock iters ∧
      (∀ x ∈ samplesOf clock iters, r.fastest ≤ x) ∧
      r.slowest ∈ samplesOf clock iters ∧
      (∀ x ∈ samplesOf clock iters, x ≤ r.slowest) ∧
      r.avg = (samplesOf clock iters).sum / iters := by
  obtain ⟨r, hr, h1, h2, h3, h4, h5⟩ := run_benchmark_spec iters clock h
  exact ⟨r, by rw [hr], h1, h2, h3, h4, h5⟩

/-- Witness for C1 at `iters = 2` with the clock advancing 10 ns inside every
iteration (both samples are 10). -/
theorem C1_benchmark_reduction_witness :
    1 ≤ 2 ∧
    ∃ r, (run_benchmark 2 (fun k => 10 * k)).2 = some r ∧
      r.fastest ∈ samplesOf (fun k => 10 * k) 2 ∧
      (∀ x ∈ samplesOf (fun k => 10 * k) 2, r.fastest ≤ x) ∧
      r.slowest ∈ samplesOf (fun k => 10 * k) 2 ∧
      (∀ x ∈ samplesOf (fun k => 10 * k) 2, x ≤ r.slowest) ∧
      r.avg = (samplesOf (fun k => 10 * k) 2).sum / 2 :=
  ⟨by decide, C1_benchmark_reduction 2 (fun k => 10 * k) (by decide)⟩

/-- Counterexample to claim C2: invoking `run_benchmark` with zero iterations
does not surface a typed `InvalidIterationCount` error to the caller — there
is no error channel in its return type at all, and the run aborts with a
panic (`res.len() - 1` on an empty vector), modelled by the `none` report.
The first component confirms the operation is never invoked. -/
theorem C2_counterexample :
    (run_benchmark 0 (fun _ => 0)).2 = none ∧ (run_benchmark 0 (fun _ => 0)).1 = [] :=
  ⟨rfl, rfl⟩

/-- Claim C2 as amended: invoking the benchmark runner with zero iterations
aborts with a panic (integer underflow / index out of bounds in the
reduction step) rather than returning a typed error, and it does not invoke
the supplied operation at all (the invocation list is empty). -/
theorem C2_zero_iterations_aborts (clock : Nat → Nat) :
    run_benchmark 0 clock = ([], none) :=
  rfl

/-- Claim C7: every report produced by a run with iteration count `≥ 1`
satisfies `fastest ≤ average ≤ slowest`. -/
theorem C7_report_ordered (iters : Nat) (clock : Nat → Nat) (h : 1 ≤ iters) :
    ∃ r, (run_benchmark iters clock).2 = some r ∧
      r.fastest ≤ r.avg ∧ r.avg ≤ r.slowest := by
  obtain ⟨r, hr, _, h2, _, h4, h5⟩ := run_benchmark_spec iters clock h
  have hlen : (samplesOf clock iters).length = iters := samplesOf_length clock iters
  refine ⟨r, by rw [hr], ?_, ?_⟩
  · rw [h5, Nat.le_div_iff_mul_le (by omega)]
    have := List.card_nsmul_le_sum (samplesOf clock iters) r.fastest h2
    rw [hlen, smul_eq_mul, Nat.mul_comm] at this
    exact this
  · rw [h5]
    have := List.sum_le_card_nsmul (samplesOf clock iters) r.slowest h4
    rw [hlen, smul_eq_mul] at this
    calc (samplesOf clock iters).sum / iters
        ≤ iters * r.slowest / iters := Nat.div_le_div_right this
      _ = r.slowest := Nat.mul_div_cancel_left _ (by omega)

/-- Witness for C7 at `iters = 3` with the identity clock. -/
theorem C7_report_ordered_witness :
    1 ≤ 3 ∧
    ∃ r, (run_benchmark 3 (fun k => k)).2 = some r ∧
      r.fastest ≤ r.avg ∧ r.avg ≤ r.slowest :=
  ⟨by decide, C7_report_ordered 3 (fun k => k) (by decide)⟩

/-- Claim C9: for every run with `iters ≥ 1` the error branches inside the
runner are unreachable — every loop iteration sets both marks of the
internal timer, so the per-iteration `unwrap` of `time_in_nanos()` succeeds,
and the accesses at positions `0` and `len - 1` of the sample vector are in
bounds, so the whole run returns a report. -/
theorem C9_no_internal_panic (iters : Nat) (clock : Nat → Nat) (h : 1 ≤ iters) :
    (∀ i t, ∃ t2 n, benchStep clock i t = some (t2, n) ∧
      t2.start.isSome ∧ t2.stop.isSome ∧ t2.timeInNanos = some n) ∧
    (run_benchmark iters clock).2.isSome = true := by
  constructor
  · intro i t
    refine ⟨⟨some (clock (2 * i)), some (clock (2 * i + 1))⟩,
      clock (2 * i + 1) - clock (2 * i), benchStep_eq clock i t, rfl, rfl, ?_⟩
    simp [Lib.SimpleTimer.timeInNanos, Lib.SimpleTimer.findDiff, durationSince,
      Duration.fromNanos_asNanos]
  · obtain ⟨r, hr, _⟩ := run_benchmark_spec iters clock h
    rw [hr]
    rfl

/-- Witness for C9 at `iters = 1` with the constant-zero clock. -/
theorem C9_no_internal_panic_witness :
    1 ≤ 1 ∧ (run_benchmark 1 (fun _ => 0)).2.isSome = true :=
  ⟨by decide, (C9_no_internal_panic 1 (fun _ => 0) (by decide)).2⟩

/-- Counterexample to claim C3: calling `stop()` on an Empty timer (no start
mark, no stop mark) does not fail — the assertion only guards against an
existing stop mark, so the call succeeds and records a stop mark with no
start mark preceding it. -/
theorem C3_counterexample :
    Simple.SimpleTimer.stopAt ⟨none, none, "main"⟩ 5 = some ⟨none, some 5, "main"⟩ :=
  rfl

/-- Claim C3 as amended: `start()` fails (panics with `AlreadyStarted`)
exactly when a start mark already exists, i.e. in the Started and Stopped
states; `stop()` fails (panics with `AlreadyStopped`) exactly when a stop
mark already exists, i.e. in the Stopped state only — in the Empty state
`stop()` succeeds. -/
theorem C3_lifecycle (t : Simple.SimpleTimer) (now : Nat) :
    (t.startAt now = none ↔ t.start.isSome = true) ∧
    (t.stopAt now = none ↔ t.stop.isSome = true) := by
  cases hs : t.start <;> cases he : t.stop <;>
    simp [Simple.SimpleTimer.startAt, Simple.SimpleTimer.stopAt, hs, he]

/-- Claim C4: the elapsed-time queries return the absent value exactly when
at least one of the two marks is missing, and a value exactly when both are
present — for `lib.rs`'s `find_diff`-based queries and for the
`traits.rs` queries alike. -/
theorem C4_elapsed_iff_both_marks (t : Lib.SimpleTimer) (s : Simple.SimpleTimer) :
    (t.findDiff.isSome = true ↔ t.start.isSome = true ∧ t.stop.isSome = true) ∧
    (t.timeInNanos.isSome = true ↔ t.start.isSome = true ∧ t.stop.isSome = true) ∧
    (t.timeInMicros.isSome = true ↔ t.start.isSome = true ∧ t.stop.isSome = true) ∧
    (t.timeInMillis.isSome = true ↔ t.start.isSome = true ∧ t.stop.isSome = true) ∧
    (t.timeInSecs.isSome = true ↔ t.start.isSome = true ∧ t.stop.isSome = true) ∧
    (s.timeInNanos.isSome = true ↔ s.start.isSome = true ∧ s.stop.isSome = true) ∧
    (s.timeInMicros.isSome = true ↔ s.start.isSome = true ∧ s.stop.isSome = true) ∧
    (s.timeInMillis.isSome = true ↔ s.start.isSome = true ∧ s.stop.isSome = true) ∧
    (s.timeInSecs.isSome = true ↔ s.start.isSome = true ∧ s.stop.isSome = true) := by
  cases h1 : t.start <;> cases h2 : t.stop <;> cases h3 : s.start <;> cases h4 : s.stop <;>
    simp [Lib.SimpleTimer.findDiff, Lib.SimpleTimer.timeInNanos,
      Lib.SimpleTimer.timeInMicros, Lib.SimpleTimer.timeInMillis,
      Lib.SimpleTimer.timeInSecs, Simple.SimpleTimer.timeInNanos,
      Simple.SimpleTimer.timeInMicros, Simple.SimpleTimer.timeInMillis,
      Simple.SimpleTimer.timeInSecs, h1, h2, h3, h4]

/-- Counterexample to claim C5: `start_timer` on a tag holding an
already-started timer does not fail with `AlreadyStarted` — it returns `Ok`
(overwriting the start mark); likewise `stop_timer` on a tag holding an
already-stopped timer returns `Ok`. -/
theorem C5_counterexample :
    (Lib.ComplexTimer.startTimer
        ⟨fun k => if k = "x" then some ⟨some 1, none⟩ else none⟩ "x" 7).1 = Except.ok () ∧
    (Lib.ComplexTimer.stopTimer
        ⟨fun k => if k = "x" then some ⟨some 1, some 2⟩ else none⟩ "x" 9).1 = Except.ok () :=
  ⟨rfl, rfl⟩

/-- Claim C5 as amended: `start_timer(tag)` and `stop_timer(tag)` fail with
`UnknownTag` exactly when the tag is absent; on a present tag they always
succeed, unconditionally overwriting the respective mark (the registry's
timers do not carry the `AlreadyStarted`/`AlreadyStopped` semantics). -/
theorem C5_registry_start_stop (c : Lib.ComplexTimer) (name : String) (now : Nat) :
    (c.timers name = none →
      c.startTimer name now = (Except.error "This timer does not exist", c) ∧
      c.stopTimer name now = (Except.error "This timer does not exist", c)) ∧
    (∀ x, c.timers name = some x →
      (c.startTimer name now).1 = Except.ok () ∧
      (c.startTimer name now).2.timers name = some ⟨some now, x.stop⟩ ∧
      (c.stopTimer name now).1 = Except.ok () ∧
      (c.stopTimer name now).2.timers name = some ⟨x.start, some now⟩) := by
  cases h : c.timers name <;>
    simp [Lib.ComplexTimer.startTimer, Lib.ComplexTimer.stopTimer, h]

/-- Witness for C5 as amended: a registry holding a started timer under
`"x"`; `start_timer("x")` succeeds and overwrites the start mark. -/
theorem C5_registry_start_stop_witness :
    (Lib.ComplexTimer.startTimer
        ⟨fun k => if k = "x" then some ⟨some 1, none⟩ else none⟩ "x" 7).2.timers "x"
      = some ⟨some 7, none⟩ :=
  ((C5_registry_start_stop
      ⟨fun k => if k = "x" then some ⟨some 1, none⟩ else none⟩ "x" 7).2
    ⟨some 1, none⟩ (by simp)).2.1

/-- Claim C6: for every timer with both marks present, the unit queries are
the truncating integer division of the nanosecond value by 1000, 1000000 and
1000000000 respectively — for the `traits.rs` queries on `simple.rs`'s timer
and for `lib.rs`'s queries alike. -/
theorem C6_unit_conversions (t : Simple.SimpleTimer) (u : Lib.SimpleTimer) (n m : Nat) :
    (t.timeInNanos = some n →
      t.timeInMicros = some (n / 1000) ∧
      t.timeInMillis = some (n / 1000000) ∧
      t.timeInSecs = some (n / 1000000000)) ∧
    (u.timeInNanos = some m →
      u.timeInMicros = some (m / 1000) ∧
      u.timeInMillis = some (m / 1000000) ∧
      u.timeInSecs = some (m / 1000000000)) := by
  constructor
  · intro hn
    cases hs : t.start with
    | none => simp [Simple.SimpleTimer.timeInNanos, hs] at hn
    | some s =>
      cases he : t.stop with
      | none => simp [Simple.SimpleTimer.timeInNanos, hs, he] at hn
      | some e =>
        simp only [Simple.SimpleTimer.timeInNanos, hs, he, durationSince,
          Duration.fromNanos_asNanos, Option.some_inj] at hn
        subst hn
        simp [Simple.SimpleTimer.timeInMicros, Simple.SimpleTimer.timeInMillis,
          Simple.SimpleTimer.timeInSecs, hs, he, durationSince,
          Duration.fromNanos_asMicros, Duration.fromNanos_asMillis,
          Duration.fromNanos_asSecs]
  · intro hm
    cases hs : u.start with
    | none => simp [Lib.SimpleTimer.timeInNanos, Lib.SimpleTimer.findDiff, hs] at hm
    | some s =>
      cases he : u.stop with
      | none => simp [Lib.SimpleTimer.timeInNanos, Lib.SimpleTimer.findDiff, hs, he] at hm
      | some e =>
        simp only [Lib.SimpleTimer.timeInNanos, Lib.SimpleTimer.findDiff, hs, he,
          durationSince, Duration.fromNanos_asNanos, Option.some_inj] at hm
        subst hm
        simp [Lib.SimpleTimer.timeInMicros, Lib.SimpleTimer.timeInMillis,
          Lib.SimpleTimer.timeInSecs, Lib.SimpleTimer.findDiff, hs, he, durationSince,
          Duration.fromNanos_asMicros, Duration.fromNanos_asMillis,
          Duration.fromNanos_asSecs]

/-- Witness for C6: a completed `simple.rs` timer measuring 2500000000 ns and
a completed `lib.rs` timer measuring 3000 ns. -/
theorem C6_unit_conversions_witness :
    (Simple.SimpleTimer.timeInMicros ⟨some 0, some 2500000000, "w"⟩ = some 2500000 ∧
     Simple.SimpleTimer.timeInMillis ⟨some 0, some 2500000000, "w"⟩ = some 2500 ∧
     Simple.SimpleTimer.timeInSecs ⟨some 0, some 2500000000, "w"⟩ = some 2) ∧
    (Lib.SimpleTimer.timeInMicros ⟨some 10, some 3010⟩ = some 3 ∧
     Lib.SimpleTimer.timeInMillis ⟨some 10, some 3010⟩ = some 0 ∧
     Lib.SimpleTimer.timeInSecs ⟨some 10, some 3010⟩ = some 0) :=
  ⟨(C6_unit_conversions ⟨some 0, some 2500000000, "w"⟩ ⟨some 10, some 3010⟩
      2500000000 3000).1 rfl,
   (C6_unit_conversions ⟨some 0, some 2500000000, "w"⟩ ⟨some 10, some 3010⟩
      2500000000 3000).2 rfl⟩

/-- Claim C8: `create_timer` fails with `DuplicateTag` when the tag exists;
`delete_timer` fails with `UnknownTag` when the tag is absent; and after a
successful `delete_timer` the tag is absent, so the tag-referencing
operations (`start_timer`, `stop_timer`, `delete_timer`) fail with
`UnknownTag` and the elapsed query returns the absent value. -/
theorem C8_registry_tag_lifecycle (c : Lib.ComplexTimer) (name : String) (now : Nat) :
    ((c.timers name).isSome = true →
      (c.createTimer name).1 = Except.error "This timer already exists") ∧
    (c.timers name = none →
      (c.deleteTimer name).1 = Except.error "This timer does not exist") ∧
    ((c.timers name).isSome = true →
      (c.deleteTimer name).1 = Except.ok () ∧
      (c.deleteTimer name).2.timers name = none ∧
      ((c.deleteTimer name).2.startTimer name now).1 = Except.error "This timer does not exist" ∧
      ((c.deleteTimer name).2.stopTimer name now).1 = Except.error "This timer does not exist" ∧
      ((c.deleteTimer name).2.deleteTimer name).1 = Except.error "This timer does not exist" ∧
      (c.deleteTimer name).2.timeInNanos name = none) := by
  cases h : c.timers name <;>
    simp [Lib.ComplexTimer.createTimer, Lib.ComplexTimer.deleteTimer,
      Lib.ComplexTimer.startTimer, Lib.ComplexTimer.stopTimer,
      Lib.ComplexTimer.timeInNanos, h]

/-- Witness for C8: duplicate `create` on a registry holding `"x"`, `delete`
on the empty registry, and `start` after a successful `delete`. -/
theorem C8_registry_tag_lifecycle_witness :
    (Lib.ComplexTimer.createTimer
        ⟨fun k => if k = "x" then some ⟨none, none⟩ else none⟩ "x").1
      = Except.error "This timer already exists" ∧
    (Lib.ComplexTimer.deleteTimer Lib.ComplexTimer.new "x").1
      = Except.error "This timer does not exist" ∧
    ((Lib.ComplexTimer.deleteTimer
        ⟨fun k => if k = "x" then some ⟨none, none⟩ else none⟩ "x").2.startTimer "x" 3).1
      = Except.error "This timer does not exist" :=
  ⟨(C8_registry_tag_lifecycle
      ⟨fun k => if k = "x" then some ⟨none, none⟩ else none⟩ "x" 3).1 (by simp),
   (C8_registry_tag_lifecycle Lib.ComplexTimer.new "x" 3).2.1 rfl,
   ((C8_registry_tag_lifecycle
      ⟨fun k => if k = "x" then some ⟨none, none⟩ else none⟩ "x" 3).2.2 (by simp)).2.2.1⟩

/-- Claim C10: `create_timer` on an existing tag returns the error and leaves
the registry untouched — the whole mapping is unchanged, hence the tag set
and every timer's marks are exactly as before. -/
theorem C10_create_duplicate_preserves (c : Lib.ComplexTimer) (name : String) :
    (c.timers name).isSome = true →
      (c.createTimer name).1 = Except.error "This timer already exists" ∧
      (c.createTimer name).2 = c ∧
      ∀ k, (c.createTimer name).2.timers k = c.timers k := by
  intro h
  simp [Lib.ComplexTimer.createTimer, h]

/-- Witness for C10: duplicate `create` on a registry holding a completed
timer under `"y"` leaves the registry unchanged. -/
theorem C10_create_duplicate_preserves_witness :
    (Lib.ComplexTimer.createTimer
        ⟨fun k => if k = "y" then some ⟨some 4, some 6⟩ else none⟩ "y").2
      = ⟨fun k => if k = "y" then some ⟨some 4, some 6⟩ else none⟩ :=
  (C10_create_duplicate_preserves
      ⟨fun k => if k = "y" then some ⟨some 4, some 6⟩ else none⟩ "y" (by simp)).2.1
